import Mathlib

/-!
Verification of the `proptest` attribute macro from `proptest-attr`
(src/lib.rs). The macro is embedded shallowly: syntax-tree fragments the
macro inspects become inductive types, opaque token streams it merely
forwards become `String`, and the host language's expression parser (an
external collaborator, `syn`'s `LitStr::parse::<Expr>`) is a parameter
`parseExpr : String → Except String String` returning either the parsed
expression (kept opaque as its text) or the parser's error message.
Source spans become `Nat` tags carried alongside each construct, so that
"diagnostic anchored at X" is provable as an equality of span tags.
-/

namespace ProptestAttr

/-- A literal appearing as the value of a name-value attribute argument
(syn `Lit`): a string literal with its contents and span, or any other
literal kind (integer, bool, ...) with its span. -/
inductive Lit where
  | str (contents : String) (span : Nat)
  | other (span : Nat)
deriving DecidableEq, Repr

/-- One attribute argument (syn `NestedMeta`), reduced to the shapes the
macro distinguishes at lines 98-131 of src/lib.rs: a name-value meta
`path = lit`, a bare path meta, a list meta `path(..)`, or a bare literal
argument. Only the name-value form is inspected further; every other
shape falls into the final `else` branch. -/
inductive NestedMeta where
  | nameValue (path : String) (lit : Lit) (span : Nat)
  | metaPath (span : Nat)
  | metaList (span : Nat)
  | litArg (span : Nat)
deriving DecidableEq, Repr

/-- An attribute attached to an item or to a function parameter, kept
opaque except for its span (error anchoring uses `&attrs[0]`). -/
structure Attribute where
  span : Nat
  tokens : String
deriving DecidableEq, Repr

/-- A binding pattern of a function parameter (syn `Pat`). The `ident`
form keeps the mutability modifier explicit, since the spec discusses its
preservation; every other pattern form is carried opaquely. The macro
never inspects patterns, it only moves them. -/
inductive Pat where
  | ident (isMut : Bool) (name : String)
  | otherPat (tokens : String)
deriving DecidableEq, Repr

/-- A typed function parameter (syn `PatType`): its own attributes, the
binding pattern, and the declared type (opaque token text). -/
structure PatType where
  attrs : List Attribute
  pat : Pat
  ty : String
  span : Nat
deriving DecidableEq, Repr

/-- A function parameter (syn `FnArg`): either a typed pattern or a
receiver (`self`-style) parameter. -/
inductive FnArg where
  | typed (pt : PatType)
  | receiver (span : Nat)
deriving DecidableEq, Repr

/-- A declared return type (syn `ReturnType`): absent (`Default`) or an
arrow followed by a type. -/
inductive ReturnType where
  | default
  | ty (t : String)
deriving DecidableEq, Repr

/-- How `quote!` renders a `ReturnType` (syn's `ToTokens`): `Default`
renders as no tokens at all, the arrow form renders arrow and type. -/
def ReturnType.render : ReturnType → String
  | .default => ""
  | .ty t => "-> " ++ t

/-- A function signature (syn `Signature`), with the non-parameter
components the macro forwards verbatim via the `..input.sig` update at
line 152 of src/lib.rs. `generics` also carries the where-clause. -/
structure Signature where
  constness : Bool
  asyncness : Bool
  unsafety : Bool
  abi : Option String
  ident : String
  generics : String
  inputs : List FnArg
  variadic : Bool
  output : ReturnType
deriving DecidableEq, Repr

/-- The annotated function item (syn `ItemFn`): outer attributes,
visibility (opaque), signature, and body statements (opaque). -/
structure ItemFn where
  attrs : List Attribute
  vis : String
  sig : Signature
  block : List String
deriving DecidableEq, Repr

/-- A located diagnostic, as built by `syn::Error::new_spanned(x, msg)`:
the message text and the span of `x`. -/
structure Diag where
  message : String
  span : Nat
deriving DecidableEq, Repr

/-- The callback binding emitted at lines 184-192 of src/lib.rs: nothing
for zero parameters, the bare `pat: ty` pair for one, or a tuple pattern
typed as a tuple of types for two or more. -/
inductive InnerInputs where
  | empty
  | single (pat : Pat) (ty : String)
  | tuple (pats : List Pat) (tys : List String)
deriving DecidableEq, Repr

/-- The rewritten function assembled by the final `quote!` block at lines
197-208 of src/lib.rs: forwarded attributes and visibility, the emptied
signature, the strategy expression with its span, the callback binding,
the callback's declared return type, and the original statements. -/
structure EmittedFunction where
  attrs : List Attribute
  vis : String
  sig : Signature
  strategy : String
  strategySpan : Nat
  innerInputs : InnerInputs
  innerOutput : ReturnType
  innerStmts : List String
deriving DecidableEq, Repr

/-- The macro's result: a spanned compile error (from
`Error::into_compile_error`), the bare `compile_error!` marker emitted
when no strategy was given (lines 136-139, no span object exists there),
or the successfully rewritten function. -/
inductive Output where
  | error (message : String) (span : Nat)
  | compileErrorMarker (message : String)
  | success (f : EmittedFunction)
deriving DecidableEq, Repr

/-- The argument-processing loop at lines 96-132 of src/lib.rs. The
accumulator mirrors `maybe_strategy`; the branch structure mirrors the
source exactly: a name-value whose path is `strategy` while no strategy
is recorded is inspected (string literal required, contents re-parsed as
an expression); otherwise, if a strategy is already recorded the argument
is a duplicate; otherwise it is unknown. Non-name-value shapes are
unknown arguments unconditionally. -/
def argLoop (parseExpr : String → Except String String) :
    Option (String × Nat) → List NestedMeta → Except Diag (Option (String × Nat))
  | acc, [] => .ok acc
  | acc, .nameValue path lit span :: rest =>
    if path = "strategy" ∧ acc = none then
      match lit with
      | .str contents litSpan =>
        match parseExpr contents with
        | .ok strategy => argLoop parseExpr (some (strategy, litSpan)) rest
        | .error err =>
          .error ⟨"strategy is not a valid Rust expression: " ++ err, litSpan⟩
      | .other litSpan =>
        .error ⟨"invalid strategy: must be a string literal", litSpan⟩
    else if acc.isSome then
      .error ⟨"multiple strategies are not allowed", span⟩
    else
      .error ⟨"unknown argument", span⟩
  | _, .metaPath span :: _ => .error ⟨"unknown argument", span⟩
  | _, .metaList span :: _ => .error ⟨"unknown argument", span⟩
  | _, .litArg span :: _ => .error ⟨"unknown argument", span⟩

/-- The parameter-processing loop at lines 156-182 of src/lib.rs: typed
parameters with their own attributes are rejected (anchored at the first
attribute), receivers are rejected (anchored at the argument), and the
surviving pattern/type pairs are collected in declaration order. -/
def paramLoop : List FnArg → Except Diag (List (Pat × String))
  | [] => .ok []
  | .typed pt :: rest =>
    match pt.attrs with
    | a :: _ =>
      .error ⟨"proptest-attr does not allow to have attributes for function arguments", a.span⟩
    | [] => (paramLoop rest).map (fun ps => (pt.pat, pt.ty) :: ps)
  | .receiver span :: _ =>
    .error ⟨"receiver arguments are invalid in the testing context", span⟩

/-- The arity rule at lines 184-192 of src/lib.rs: empty binding, bare
pair, or tuple of all patterns and all types in order. -/
def mkInnerInputs : List (Pat × String) → InnerInputs
  | [] => .empty
  | [(p, t)] => .single p t
  | ps => .tuple (ps.map Prod.fst) (ps.map Prod.snd)

/-- The whole macro (`proptest`, lines 91-211 of src/lib.rs): process the
attribute arguments, emit the `compile_error!` marker when no strategy
was recorded, then process the parameters and assemble the rewritten
function. The emitted signature keeps every field of the original except
`inputs` (emptied) and `output` (reset to default); the original output
becomes the callback's declared return type. -/
def proptest (parseExpr : String → Except String String)
    (args : List NestedMeta) (input : ItemFn) : Output :=
  match argLoop parseExpr none args with
  | .error d => .error d.message d.span
  | .ok none => .compileErrorMarker "no strategy specified for this proptest"
  | .ok (some (strategy, strategySpan)) =>
    match paramLoop input.sig.inputs with
    | .error d => .error d.message d.span
    | .ok ps =>
      .success
        { attrs := input.attrs
          vis := input.vis
          sig := { input.sig with inputs := [], output := .default }
          strategy := strategy
          strategySpan := strategySpan
          innerInputs := mkInnerInputs ps
          innerOutput := input.sig.output
          innerStmts := input.block }

/-- An expression parser that accepts every string, standing in for the
host parser on well-formed expression text. -/
def okParse : String → Except String String := fun s => .ok s

/-- An expression parser that rejects the text "bad(" with the message a
real parser would give, and accepts everything else. -/
def pickyParse : String → Except String String := fun s =>
  if s = "bad(" then .error "unexpected end of input" else .ok s

/-- A concrete signature with a single `value: u8` parameter, mirroring
the crate's doc example `fn example_test(value: u8) -> TestCaseResult`. -/
def sampleSig : Signature :=
  { constness := false
    asyncness := false
    unsafety := false
    abi := none
    ident := "example_test"
    generics := ""
    inputs := [.typed ⟨[], .ident false "value", "u8", 7⟩]
    variadic := false
    output := .ty "prop::test_runner::TestCaseResult" }

/-- A concrete annotated function built on `sampleSig`. -/
def sampleFn : ItemFn :=
  { attrs := [⟨0, "#[test]"⟩]
    vis := ""
    sig := sampleSig
    block := ["Ok(())"] }

/-- A concrete two-parameter function `fn t(a: u8, b: u32)`, mirroring
the crate's multi-value doc example. -/
def sampleFn2 : ItemFn :=
  { attrs := [⟨0, "#[test]"⟩]
    vis := ""
    sig := { sampleSig with
              inputs := [.typed ⟨[], .ident false "a", "u8", 7⟩,
                         .typed ⟨[], .ident true "b", "u32", 8⟩] }
    block := ["Ok(())"] }

/-- A concrete zero-parameter function. -/
def sampleFn0 : ItemFn :=
  { attrs := [⟨0, "#[test]"⟩]
    vis := ""
    sig := { sampleSig with inputs := [] }
    block := ["Ok(())"] }

/-- The two-parameter list of `sampleFn2` with the declaration order
swapped, for the order-preservation law. -/
def sampleFn2swap : ItemFn :=
  { attrs := [⟨0, "#[test]"⟩]
    vis := ""
    sig := { sampleSig with
              inputs := [.typed ⟨[], .ident true "b", "u32", 8⟩,
                         .typed ⟨[], .ident false "a", "u8", 7⟩] }
    block := ["Ok(())"] }

/-- A concrete one-parameter function whose signature omits the return
type. -/
def sampleFnUnit : ItemFn :=
  { attrs := [⟨0, "#[test]"⟩]
    vis := ""
    sig := { sampleSig with output := .default }
    block := ["assert(true)"] }

/-- A concrete well-formed single-strategy argument list,
`strategy = "0..=10u8"`. -/
def sampleArgs : List NestedMeta :=
  [.nameValue "strategy" (.str "0..=10u8" 10) 1]

/-- The function `proptest okParse sampleArgs sampleFn` emits. -/
def sampleEmitted : EmittedFunction :=
  { attrs := sampleFn.attrs
    vis := sampleFn.vis
    sig := { sampleFn.sig with inputs := [], output := .default }
    strategy := "0..=10u8"
    strategySpan := 10
    innerInputs := .single (.ident false "value") "u8"
    innerOutput := sampleFn.sig.output
    innerStmts := sampleFn.block }

theorem argLoop_append (parseExpr : String → Except String String)
    (xs ys : List NestedMeta) (acc : Option (String × Nat)) :
    argLoop parseExpr acc (xs ++ ys) =
      (argLoop parseExpr acc xs).bind fun acc2 => argLoop parseExpr acc2 ys := by
  induction xs generalizing acc with
  | nil => simp [argLoop, Except.bind]
  | cons x xs ih =>
    cases x with
    | nameValue path lit span =>
      by_cases h : path = "strategy" ∧ acc = none
      · cases lit with
        | str contents litSpan =>
          cases hp : parseExpr contents with
          | ok strategy => simp [argLoop, h, hp, ih]
          | error err => simp [argLoop, h, hp, Except.bind]
        | other litSpan => simp [argLoop, h, Except.bind]
      · by_cases hs : acc.isSome <;> simp [argLoop, h, hs, Except.bind]
    | metaPath span => simp [argLoop, Except.bind]
    | metaList span => simp [argLoop, Except.bind]
    | litArg span => simp [argLoop, Except.bind]

theorem proptest_of_argLoop_error (parseExpr : String → Except String String)
    (args : List NestedMeta) (input : ItemFn) (d : Diag)
    (h : argLoop parseExpr none args = .error d) :
    proptest parseExpr args input = .error d.message d.span := by
  simp [proptest, h]

theorem paramLoop_map_typed (pts : List PatType)
    (h : ∀ pt ∈ pts, pt.attrs = []) :
    paramLoop (pts.map FnArg.typed) = .ok (pts.map fun pt => (pt.pat, pt.ty)) := by
  induction pts with
  | nil => simp [paramLoop]
  | cons pt pts ih =>
    have hpt : pt.attrs = [] := h pt (List.mem_cons_self pt pts)
    have hrest : ∀ q ∈ pts, q.attrs = [] := fun q hq => h q (List.mem_cons_of_mem pt hq)
    simp [paramLoop, hpt, ih hrest, Except.map]

theorem paramLoop_attr_error (pts : List PatType)
    (h : ∃ pt ∈ pts, pt.attrs ≠ []) :
    ∃ sp, paramLoop (pts.map FnArg.typed) =
      .error ⟨"proptest-attr does not allow to have attributes for function arguments", sp⟩ := by
  induction pts with
  | nil => simp at h
  | cons pt pts ih =>
    cases ha : pt.attrs with
    | cons a rest => exact ⟨a.span, by simp [paramLoop, ha]⟩
    | nil =>
      obtain ⟨q, hq, hqa⟩ := h
      rcases List.mem_cons.mp hq with rfl | hq2
      · exact absurd ha hqa
      · obtain ⟨sp, hsp⟩ := ih ⟨q, hq2, hqa⟩
        exact ⟨sp, by simp [paramLoop, ha, hsp, Except.map]⟩

theorem proptest_success (parseExpr : String → Except String String)
    (args : List NestedMeta) (input : ItemFn)
    (strategy : String) (strategySpan : Nat) (ps : List (Pat × String))
    (hargs : argLoop parseExpr none args = .ok (some (strategy, strategySpan)))
    (hps : paramLoop input.sig.inputs = .ok ps) :
    proptest parseExpr args input =
      .success
        { attrs := input.attrs
          vis := input.vis
          sig := { input.sig with inputs := [], output := .default }
          strategy := strategy
          strategySpan := strategySpan
          innerInputs := mkInnerInputs ps
          innerOutput := input.sig.output
          innerStmts := input.block } := by
  simp [proptest, hargs, hps]

theorem mkInnerInputs_of_two_le :
    ∀ (ps : List (Pat × String)), 2 ≤ ps.length →
      mkInnerInputs ps = .tuple (ps.map Prod.fst) (ps.map Prod.snd)
  | [], h => by simp at h
  | [p], h => by simp at h
  | p :: q :: rest, _ => by simp [mkInnerInputs]

theorem mkInnerInputs_map (pts : List PatType) (h : 2 ≤ pts.length) :
    mkInnerInputs (pts.map fun pt => (pt.pat, pt.ty)) =
      .tuple (pts.map PatType.pat) (pts.map PatType.ty) := by
  rw [mkInnerInputs_of_two_le _ (by simpa using h)]
  simp [List.map_map, Function.comp]

/-- C1: for every annotated function with at least two typed parameters
(all attribute-free) and an attribute argument list that processing
accepts with a single strategy, the emitted callback binding is the tuple
of all binding patterns typed as the tuple of all declared types, in
declaration order, nothing dropped, reordered, or renamed; and for a
function declaring any permutation of the same parameters the emitted
tuple is permuted identically. -/
theorem c1_tuple_binding_order
    (parseExpr : String → Except String String) (args : List NestedMeta)
    (input input2 : ItemFn) (strategy : String) (strategySpan : Nat)
    (pts pts2 : List PatType)
    (hargs : argLoop parseExpr none args = .ok (some (strategy, strategySpan)))
    (hattrs : ∀ pt ∈ pts, pt.attrs = [])
    (hlen : 2 ≤ pts.length)
    (hperm : pts2.Perm pts)
    (hin : input.sig.inputs = pts.map FnArg.typed)
    (hin2 : input2.sig.inputs = pts2.map FnArg.typed) :
    proptest parseExpr args input = .success
      { attrs := input.attrs
        vis := input.vis
        sig := { input.sig with inputs := [], output := .default }
        strategy := strategy
        strategySpan := strategySpan
        innerInputs := .tuple (pts.map PatType.pat) (pts.map PatType.ty)
        innerOutput := input.sig.output
        innerStmts := input.block }
    ∧ proptest parseExpr args input2 = .success
      { attrs := input2.attrs
        vis := input2.vis
        sig := { input2.sig with inputs := [], output := .default }
        strategy := strategy
        strategySpan := strategySpan
        innerInputs := .tuple (pts2.map PatType.pat) (pts2.map PatType.ty)
        innerOutput := input2.sig.output
        innerStmts := input2.block } := by
  have hattrs2 : ∀ pt ∈ pts2, pt.attrs = [] := fun pt hpt => hattrs pt (hperm.subset hpt)
  have hlen2 : 2 ≤ pts2.length := hperm.length_eq ▸ hlen
  have hside : ∀ (inp : ItemFn) (qs : List PatType), (∀ pt ∈ qs, pt.attrs = []) →
      2 ≤ qs.length → inp.sig.inputs = qs.map FnArg.typed →
      proptest parseExpr args inp = .success
        { attrs := inp.attrs
          vis := inp.vis
          sig := { inp.sig with inputs := [], output := .default }
          strategy := strategy
          strategySpan := strategySpan
          innerInputs := .tuple (qs.map PatType.pat) (qs.map PatType.ty)
          innerOutput := inp.sig.output
          innerStmts := inp.block } := by
    intro inp qs hq hl hi
    have h1 := proptest_success parseExpr args inp strategy strategySpan
      (qs.map fun pt => (pt.pat, pt.ty)) hargs
      (by rw [hi]; exact paramLoop_map_typed qs hq)
    rw [mkInnerInputs_map qs hl] at h1
    exact h1
  exact ⟨hside input pts hattrs hlen hin, hside input2 pts2 hattrs2 hlen2 hin2⟩

/-- C1 witness: the doc example `fn t(a: u8, b: u32)` (here with `mut b`,
as in test fixture 10) yields the binding `(a, b): (u8, u32)`, and the
swapped declaration yields `(b, a): (u32, u8)`. -/
theorem c1_witness :
    proptest okParse sampleArgs sampleFn2 = .success
      { attrs := sampleFn2.attrs
        vis := sampleFn2.vis
        sig := { sampleFn2.sig with inputs := [], output := .default }
        strategy := "0..=10u8"
        strategySpan := 10
        innerInputs := .tuple [.ident false "a", .ident true "b"] ["u8", "u32"]
        innerOutput := sampleFn2.sig.output
        innerStmts := sampleFn2.block }
    ∧ proptest okParse sampleArgs sampleFn2swap = .success
      { attrs := sampleFn2swap.attrs
        vis := sampleFn2swap.vis
        sig := { sampleFn2swap.sig with inputs := [], output := .default }
        strategy := "0..=10u8"
        strategySpan := 10
        innerInputs := .tuple [.ident true "b", .ident false "a"] ["u32", "u8"]
        innerOutput := sampleFn2swap.sig.output
        innerStmts := sampleFn2swap.block } :=
  c1_tuple_binding_order okParse sampleArgs sampleFn2 sampleFn2swap "0..=10u8" 10
    [⟨[], .ident false "a", "u8", 7⟩, ⟨[], .ident true "b", "u32", 8⟩]
    [⟨[], .ident true "b", "u32", 8⟩, ⟨[], .ident false "a", "u8", 7⟩]
    rfl (by decide) (by decide) (List.Perm.swap _ _ _) rfl rfl

/-- C2: for every annotated function with exactly one attribute-free
typed parameter and accepted strategy arguments, the emitted callback
binding is exactly the original pattern with the original type, with no
singleton-tuple wrapping added. -/
theorem c2_single_binding
    (parseExpr : String → Except String String) (args : List NestedMeta)
    (input : ItemFn) (strategy : String) (strategySpan : Nat) (pt : PatType)
    (hargs : argLoop parseExpr none args = .ok (some (strategy, strategySpan)))
    (hattr : pt.attrs = [])
    (hin : input.sig.inputs = [.typed pt]) :
    proptest parseExpr args input = .success
      { attrs := input.attrs
        vis := input.vis
        sig := { input.sig with inputs := [], output := .default }
        strategy := strategy
        strategySpan := strategySpan
        innerInputs := .single pt.pat pt.ty
        innerOutput := input.sig.output
        innerStmts := input.block } := by
  have hps : paramLoop input.sig.inputs = .ok [(pt.pat, pt.ty)] := by
    rw [hin]
    simpa using paramLoop_map_typed [pt] (by simpa using hattr)
  have h1 := proptest_success parseExpr args input strategy strategySpan
    [(pt.pat, pt.ty)] hargs hps
  simpa [mkInnerInputs] using h1

/-- C2 witness: the doc example `fn example_test(value: u8)` yields the
bare binding `value: u8`. -/
theorem c2_witness :
    proptest okParse sampleArgs sampleFn = .success
      { attrs := sampleFn.attrs
        vis := sampleFn.vis
        sig := { sampleFn.sig with inputs := [], output := .default }
        strategy := "0..=10u8"
        strategySpan := 10
        innerInputs := .single (.ident false "value") "u8"
        innerOutput := sampleFn.sig.output
        innerStmts := sampleFn.block } :=
  c2_single_binding okParse sampleArgs sampleFn "0..=10u8" 10
    ⟨[], .ident false "value", "u8", 7⟩ rfl rfl rfl

/-- C3: for every annotated function with zero parameters and accepted
strategy arguments, expansion succeeds and the emitted callback binds
nothing. -/
theorem c3_empty_binding
    (parseExpr : String → Except String String) (args : List NestedMeta)
    (input : ItemFn) (strategy : String) (strategySpan : Nat)
    (hargs : argLoop parseExpr none args = .ok (some (strategy, strategySpan)))
    (hin : input.sig.inputs = []) :
    proptest parseExpr args input = .success
      { attrs := input.attrs
        vis := input.vis
        sig := { input.sig with inputs := [], output := .default }
        strategy := strategy
        strategySpan := strategySpan
        innerInputs := .empty
        innerOutput := input.sig.output
        innerStmts := input.block } := by
  have h1 := proptest_success parseExpr args input strategy strategySpan [] hargs
    (by rw [hin]; rfl)
  simpa [mkInnerInputs] using h1

/-- C3 witness: a zero-parameter function expands successfully with an
empty callback binding. -/
theorem c3_witness :
    proptest okParse sampleArgs sampleFn0 = .success
      { attrs := sampleFn0.attrs
        vis := sampleFn0.vis
        sig := { sampleFn0.sig with inputs := [], output := .default }
        strategy := "0..=10u8"
        strategySpan := 10
        innerInputs := .empty
        innerOutput := sampleFn0.sig.output
        innerStmts := sampleFn0.block } :=
  c3_empty_binding okParse sampleArgs sampleFn0 "0..=10u8" 10 rfl rfl

/-- C4 counterexample: in `#[proptest(strategy = "0..10", foo = "bar")]`
the argument `foo = "bar"` is not a `strategy = "..."` form, yet because a
valid strategy was accepted earlier the expansion fails with "multiple
strategies are not allowed" at that argument (lines 118-121 of
src/lib.rs fire before the unknown-argument branch), not with "unknown
argument" as the claim states. -/
theorem c4_counterexample :
    proptest okParse
      [.nameValue "strategy" (.str "0..10" 10) 1, .nameValue "foo" (.str "bar" 11) 2]
      sampleFn = .error "multiple strategies are not allowed" 2
    ∧ proptest okParse
      [.nameValue "strategy" (.str "0..10" 10) 1, .nameValue "foo" (.str "bar" 11) 2]
      sampleFn ≠ .error "unknown argument" 2 := by
  exact ⟨rfl, by decide⟩

/-- C4 amended: a bare path, a nested list, or a bare literal argument
always makes expansion fail with "unknown argument" anchored at that
argument, whatever was accepted before it; a name-value argument with a
key other than `strategy` fails with "unknown argument" anchored at it
only when no strategy has been accepted yet — when a strategy was already
accepted it fails with "multiple strategies are not allowed" anchored at
it instead. Here `pre` is any prefix the loop accepts with state `acc`. -/
theorem c4_amended_unknown_argument
    (parseExpr : String → Except String String)
    (pre rest : List NestedMeta) (input : ItemFn)
    (acc : Option (String × Nat)) (span : Nat) (path : String) (lit : Lit)
    (hpre : argLoop parseExpr none pre = .ok acc) :
    (proptest parseExpr (pre ++ .metaPath span :: rest) input
      = .error "unknown argument" span)
    ∧ (proptest parseExpr (pre ++ .metaList span :: rest) input
      = .error "unknown argument" span)
    ∧ (proptest parseExpr (pre ++ .litArg span :: rest) input
      = .error "unknown argument" span)
    ∧ (path ≠ "strategy" → acc = none →
        proptest parseExpr (pre ++ .nameValue path lit span :: rest) input
          = .error "unknown argument" span)
    ∧ (path ≠ "strategy" → acc ≠ none →
        proptest parseExpr (pre ++ .nameValue path lit span :: rest) input
          = .error "multiple strategies are not allowed" span) := by
  have key : ∀ (x : NestedMeta) (d : Diag), argLoop parseExpr acc (x :: rest) = .error d →
      proptest parseExpr (pre ++ x :: rest) input = .error d.message d.span := by
    intro x d hx
    apply proptest_of_argLoop_error
    rw [argLoop_append, hpre]
    simpa [Except.bind] using hx
  refine ⟨key _ ⟨"unknown argument", span⟩ (by simp [argLoop]),
          key _ ⟨"unknown argument", span⟩ (by simp [argLoop]),
          key _ ⟨"unknown argument", span⟩ (by simp [argLoop]), ?_, ?_⟩
  · intro hpath hacc
    subst hacc
    exact key _ ⟨"unknown argument", span⟩ (by simp [argLoop, hpath])
  · intro hpath hacc
    cases acc with
    | none => exact absurd rfl hacc
    | some x =>
      exact key _ ⟨"multiple strategies are not allowed", span⟩ (by simp [argLoop, hpath])

/-- C4 amended witness: after the accepted prefix `strategy = "0..=10u8"`,
a bare path argument still fails with "unknown argument" at its own
span. -/
theorem c4_witness :
    proptest okParse (sampleArgs ++ .metaPath 2 :: []) sampleFn
      = .error "unknown argument" 2 :=
  (c4_amended_unknown_argument okParse sampleArgs [] sampleFn
    (some ("0..=10u8", 10)) 2 "foo" (.str "bar" 11) rfl).1

/-- C5 counterexample: the list `strategy = "0..10u8", asdf,
strategy = "5..10u8"` contains two strategy arguments and the first
parses, yet expansion fails with "unknown argument" anchored at the
intervening bare path (span 2), not with "multiple strategies are not
allowed" at the second occurrence (span 3): the loop fails fast at the
first offending argument. -/
theorem c5_counterexample :
    proptest okParse
      [.nameValue "strategy" (.str "0..10u8" 10) 1, .metaPath 2,
       .nameValue "strategy" (.str "5..10u8" 11) 3]
      sampleFn = .error "unknown argument" 2
    ∧ proptest okParse
      [.nameValue "strategy" (.str "0..10u8" 10) 1, .metaPath 2,
       .nameValue "strategy" (.str "5..10u8" 11) 3]
      sampleFn ≠ .error "multiple strategies are not allowed" 3 := by
  exact ⟨rfl, by decide⟩

/-- C5 amended: when the two `strategy = "..."` arguments are the first
two arguments of the list and the first parses successfully, expansion
fails with "multiple strategies are not allowed" anchored at the second
occurrence and not at the first (any other argument placed before the
second occurrence triggers its own diagnostic first, as the
counterexample shows). -/
theorem c5_amended_duplicate_strategy
    (parseExpr : String → Except String String)
    (s e s2 : String) (ls ls2 sp1 sp2 : Nat)
    (rest : List NestedMeta) (input : ItemFn)
    (hparse : parseExpr s = .ok e) (hne : sp1 ≠ sp2) :
    proptest parseExpr
      (.nameValue "strategy" (.str s ls) sp1 ::
        .nameValue "strategy" (.str s2 ls2) sp2 :: rest) input
      = .error "multiple strategies are not allowed" sp2
    ∧ proptest parseExpr
      (.nameValue "strategy" (.str s ls) sp1 ::
        .nameValue "strategy" (.str s2 ls2) sp2 :: rest) input
      ≠ .error "multiple strategies are not allowed" sp1 := by
  have h1 : argLoop parseExpr none
      (.nameValue "strategy" (.str s ls) sp1 ::
        .nameValue "strategy" (.str s2 ls2) sp2 :: rest)
      = .error ⟨"multiple strategies are not allowed", sp2⟩ := by
    simp [argLoop, hparse]
  have h2 := proptest_of_argLoop_error parseExpr _ input _ h1
  refine ⟨h2, ?_⟩
  rw [h2]
  intro hcontra
  exact hne (by injection hcontra with _ h3; exact h3.symm)

/-- C5 amended witness: the duplicate-strategy fixture
`strategy = "0..10u8", strategy = "5..10u8"` (test 04) errs at the second
argument's span. -/
theorem c5_witness :
    proptest okParse
      [.nameValue "strategy" (.str "0..10u8" 10) 1,
       .nameValue "strategy" (.str "5..10u8" 11) 3] sampleFn
      = .error "multiple strategies are not allowed" 3
    ∧ proptest okParse
      [.nameValue "strategy" (.str "0..10u8" 10) 1,
       .nameValue "strategy" (.str "5..10u8" 11) 3] sampleFn
      ≠ .error "multiple strategies are not allowed" 1 :=
  c5_amended_duplicate_strategy okParse "0..10u8" "0..10u8" "5..10u8" 10 11 1 3 [] sampleFn
    rfl (by decide)

/-- C6 counterexample: the list `asdf` (a bare path, test fixture 06)
contains no strategy argument, yet expansion fails with "unknown
argument" at that argument instead of emitting the
"no strategy specified for this proptest" marker: the missing-strategy
check at lines 134-140 is only reached when every argument was processed
without error. -/
theorem c6_counterexample :
    proptest okParse [.metaPath 5] sampleFn = .error "unknown argument" 5
    ∧ proptest okParse [.metaPath 5] sampleFn
      ≠ .compileErrorMarker "no strategy specified for this proptest" := by
  exact ⟨rfl, by decide⟩

/-- C6 amended: for the empty attribute argument list (the only
strategy-free list every argument of which survives the loop), expansion
emits the bare `compile_error!` marker reading "no strategy specified for
this proptest" and no rewritten function, for every annotated function
and every parser. -/
theorem c6_amended_missing_strategy
    (parseExpr : String → Except String String) (input : ItemFn) :
    proptest parseExpr [] input
      = .compileErrorMarker "no strategy specified for this proptest" := rfl

/-- C7 counterexample: with the parser rejecting "bad(", the list
`strategy = "good", strategy = "bad("` contains a strategy argument whose
string contents fail to re-parse, yet expansion reports "multiple
strategies are not allowed" at the duplicate (span 3) and never reports
the invalid-expression diagnostic at the literal (span 12): the outcome
is not independent of the surrounding arguments' order. -/
theorem c7_counterexample :
    proptest pickyParse
      [.nameValue "strategy" (.str "good" 10) 1,
       .nameValue "strategy" (.str "bad(" 12) 3] sampleFn
      = .error "multiple strategies are not allowed" 3
    ∧ proptest pickyParse
      [.nameValue "strategy" (.str "good" 10) 1,
       .nameValue "strategy" (.str "bad(" 12) 3] sampleFn
      ≠ .error ("strategy is not a valid Rust expression: unexpected end of input") 12 := by
  exact ⟨rfl, by decide⟩

/-- C7 amended: when the `strategy = "..."` argument whose contents fail
to re-parse is the first argument of the list, expansion fails with
"strategy is not a valid Rust expression: " followed by the underlying
parse error text, anchored at the string literal's span (`ls`, not the
whole argument's span), regardless of every argument that follows. -/
theorem c7_amended_invalid_strategy
    (parseExpr : String → Except String String)
    (s err : String) (ls sp : Nat) (rest : List NestedMeta) (input : ItemFn)
    (hparse : parseExpr s = .error err) :
    proptest parseExpr (.nameValue "strategy" (.str s ls) sp :: rest) input
      = .error ("strategy is not a valid Rust expression: " ++ err) ls := by
  exact proptest_of_argLoop_error parseExpr _ input
    ⟨"strategy is not a valid Rust expression: " ++ err, ls⟩
    (by simp [argLoop, hparse])

/-- C7 amended witness: a leading `strategy = "bad("` fails with the
nested parser message embedded, anchored at the literal span 12, with a
trailing argument present. -/
theorem c7_witness :
    proptest pickyParse
      (.nameValue "strategy" (.str "bad(" 12) 3 :: .metaPath 4 :: []) sampleFn
      = .error "strategy is not a valid Rust expression: unexpected end of input" 12 :=
  c7_amended_invalid_strategy pickyParse "bad(" "unexpected end of input" 12 3
    [.metaPath 4] sampleFn rfl

/-- C8: every successful expansion forwards the original outer
attributes, visibility, function name, generics and where-clause,
constness, asyncness, unsafety, abi, and variadic marker verbatim; the
only signature changes are the emptied parameter list and the removed
declared return type, which moves onto the inner callback unchanged, and
the body statements are forwarded verbatim into the callback. -/
theorem c8_frame
    (parseExpr : String → Except String String) (args : List NestedMeta)
    (input : ItemFn) (ef : EmittedFunction)
    (h : proptest parseExpr args input = .success ef) :
    ef.attrs = input.attrs ∧ ef.vis = input.vis
    ∧ ef.sig.ident = input.sig.ident ∧ ef.sig.generics = input.sig.generics
    ∧ ef.sig.constness = input.sig.constness ∧ ef.sig.asyncness = input.sig.asyncness
    ∧ ef.sig.unsafety = input.sig.unsafety ∧ ef.sig.abi = input.sig.abi
    ∧ ef.sig.variadic = input.sig.variadic
    ∧ ef.sig.inputs = [] ∧ ef.sig.output = .default
    ∧ ef.innerOutput = input.sig.output ∧ ef.innerStmts = input.block := by
  unfold proptest at h
  split at h
  · simp at h
  · simp at h
  · split at h
    · simp at h
    · injection h with h2
      subst h2
      exact ⟨rfl, rfl, rfl, rfl, rfl, rfl, rfl, rfl, rfl, rfl, rfl, rfl, rfl⟩

/-- C8 witness: the expansion of the doc example preserves every
non-parameter signature component. -/
theorem c8_witness :
    sampleEmitted.attrs = sampleFn.attrs ∧ sampleEmitted.vis = sampleFn.vis
    ∧ sampleEmitted.sig.ident = sampleFn.sig.ident
    ∧ sampleEmitted.sig.generics = sampleFn.sig.generics
    ∧ sampleEmitted.sig.constness = sampleFn.sig.constness
    ∧ sampleEmitted.sig.asyncness = sampleFn.sig.asyncness
    ∧ sampleEmitted.sig.unsafety = sampleFn.sig.unsafety
    ∧ sampleEmitted.sig.abi = sampleFn.sig.abi
    ∧ sampleEmitted.sig.variadic = sampleFn.sig.variadic
    ∧ sampleEmitted.sig.inputs = [] ∧ sampleEmitted.sig.output = .default
    ∧ sampleEmitted.innerOutput = sampleFn.sig.output
    ∧ sampleEmitted.innerStmts = sampleFn.block :=
  c8_frame okParse sampleArgs sampleFn sampleEmitted rfl

/-- C9: with a valid strategy and receiver-free parameters, expansion
succeeds whenever every parameter's own attribute list is empty — in
particular a parameter whose pattern carries a mutable binding modifier
(`Pat.ident true _`, e.g. `mut b: u32`) is forwarded verbatim into the
emitted binding, since the binding is built from the unchanged patterns —
and expansion fails with the parameter-attributes diagnostic exactly when
some parameter carries its own attributes. -/
theorem c9_mut_binding_and_attr_rejection
    (parseExpr : String → Except String String) (args : List NestedMeta)
    (input : ItemFn) (strategy : String) (strategySpan : Nat)
    (pts : List PatType)
    (hargs : argLoop parseExpr none args = .ok (some (strategy, strategySpan)))
    (hin : input.sig.inputs = pts.map FnArg.typed) :
    ((∀ pt ∈ pts, pt.attrs = []) →
      proptest parseExpr args input = .success
        { attrs := input.attrs
          vis := input.vis
          sig := { input.sig with inputs := [], output := .default }
          strategy := strategy
          strategySpan := strategySpan
          innerInputs := mkInnerInputs (pts.map fun pt => (pt.pat, pt.ty))
          innerOutput := input.sig.output
          innerStmts := input.block })
    ∧ ((∃ pt ∈ pts, pt.attrs ≠ []) →
      ∃ sp, proptest parseExpr args input =
        .error "proptest-attr does not allow to have attributes for function arguments" sp) := by
  constructor
  · intro hattrs
    exact proptest_success parseExpr args input strategy strategySpan _ hargs
      (by rw [hin]; exact paramLoop_map_typed pts hattrs)
  · intro hex
    obtain ⟨sp, hsp⟩ := paramLoop_attr_error pts hex
    refine ⟨sp, ?_⟩
    have hps : paramLoop input.sig.inputs =
        .error ⟨"proptest-attr does not allow to have attributes for function arguments", sp⟩ := by
      rw [hin]; exact hsp
    simp [proptest, hargs, hps]

/-- C9 witness: `fn t(a: u8, mut b: u32)` (test fixture 10) expands
successfully and the mutable binding appears verbatim in the emitted
tuple pattern. -/
theorem c9_witness :
    proptest okParse sampleArgs sampleFn2 = .success
      { attrs := sampleFn2.attrs
        vis := sampleFn2.vis
        sig := { sampleFn2.sig with inputs := [], output := .default }
        strategy := "0..=10u8"
        strategySpan := 10
        innerInputs := .tuple [.ident false "a", .ident true "b"] ["u8", "u32"]
        innerOutput := sampleFn2.sig.output
        innerStmts := sampleFn2.block } :=
  (c9_mut_binding_and_attr_rejection okParse sampleArgs sampleFn2 "0..=10u8" 10
    [⟨[], .ident false "a", "u8", 7⟩, ⟨[], .ident true "b", "u32", 8⟩]
    rfl rfl).1 (by decide)

/-- C10: a function whose signature omits the return type still expands
successfully given accepted strategy arguments and attribute-free
parameters; the callback's declared return type is the default one,
which renders as no tokens at all. -/
theorem c10_default_return_type
    (parseExpr : String → Except String String) (args : List NestedMeta)
    (input : ItemFn) (strategy : String) (strategySpan : Nat)
    (pts : List PatType)
    (hargs : argLoop parseExpr none args = .ok (some (strategy, strategySpan)))
    (hattrs : ∀ pt ∈ pts, pt.attrs = [])
    (hin : input.sig.inputs = pts.map FnArg.typed)
    (hout : input.sig.output = .default) :
    proptest parseExpr args input = .success
      { attrs := input.attrs
        vis := input.vis
        sig := { input.sig with inputs := [], output := .default }
        strategy := strategy
        strategySpan := strategySpan
        innerInputs := mkInnerInputs (pts.map fun pt => (pt.pat, pt.ty))
        innerOutput := .default
        innerStmts := input.block }
    ∧ ReturnType.render .default = "" := by
  have h1 := proptest_success parseExpr args input strategy strategySpan _ hargs
    (by rw [hin]; exact paramLoop_map_typed pts hattrs)
  rw [hout] at h1
  exact ⟨h1, rfl⟩

/-- C10 witness: a one-parameter function with no declared return type
expands successfully with a default (empty-rendering) callback return
type. -/
theorem c10_witness :
    proptest okParse sampleArgs sampleFnUnit = .success
      { attrs := sampleFnUnit.attrs
        vis := sampleFnUnit.vis
        sig := { sampleFnUnit.sig with inputs := [], output := .default }
        strategy := "0..=10u8"
        strategySpan := 10
        innerInputs := .single (.ident false "value") "u8"
        innerOutput := .default
        innerStmts := sampleFnUnit.block }
    ∧ ReturnType.render .default = "" :=
  c10_default_return_type okParse sampleArgs sampleFnUnit "0..=10u8" 10
    [⟨[], .ident false "value", "u8", 7⟩] rfl (by decide) rfl rfl

end ProptestAttr
